import Mathlib

/-!
Verification development for the PetLLM repository.

The Python sources under `app/` are shallowly embedded below:
* JSON / Python values are modelled by the inductive `PyVal`
  (Python floats are modelled as exact rationals; none of the verified
  properties depends on float rounding).
* Python dicts and Mongo documents are association lists (`Doc`);
  `setField` mirrors both Python dict assignment and Mongo `$set`
  (replace the value of an existing key in place, else append).
* Fallible code returns `Except` / `Option`; the external libraries
  (`langdetect`, the Groq client, `json.loads`) are abstract parameters,
  exactly as the spec treats them (out-of-scope collaborators).
-/

namespace PetLLM

/-- Model of a Python/JSON value.  Python floats are modelled as `Rat`. -/
inductive PyVal where
| str : String → PyVal
| int : Int → PyVal
| rat : Rat → PyVal
| bool : Bool → PyVal
| none : PyVal
| dict : List (String × PyVal) → PyVal
| arr : List PyVal → PyVal

/-- A Python dict / Mongo document: an association list of fields. -/
abbrev Doc := List (String × PyVal)

/-- The keys of a document, in order. -/
def keys (d : Doc) : List String := d.map (fun p => p.1)

/-- Whether key `k` is present in document `d` (`k in d` in Python). -/
def present (d : Doc) (k : String) : Bool := d.any (fun p => p.1 == k)

/-- Lookup of the (first) value stored at key `k` (`d[k]` / `d.get(k)`). -/
def getField (d : Doc) (k : String) : Option PyVal :=
  (d.find? (fun p => p.1 == k)).map (fun p => p.2)

/-- Python `d.get(k, default)`. -/
def dgetD (d : Doc) (k : String) (dflt : PyVal) : PyVal := (getField d k).getD dflt

/-- Dict assignment `d[k] = v` / Mongo `$set` of one field: replaces the value
of the (first) occurrence of an existing key in place (Python dicts keep the
original key position; keys of a Python dict or Mongo document are unique),
otherwise appends the new field at the end. -/
def setField : Doc → String → PyVal → Doc
| [], k, v => [(k, v)]
| p :: d, k, v => if p.1 == k then (k, v) :: d else p :: setField d k v

/-- Mongo `update_one({...}, {"$set": fields})`: apply each field assignment
in order to the stored document. -/
def applySet (doc : Doc) (fields : Doc) : Doc :=
  fields.foldl (fun acc kv => setField acc kv.1 kv.2) doc

/-- Python truthiness of a value. -/
def truthy : PyVal → Bool
| PyVal.str s => s ≠ ""
| PyVal.int n => n ≠ 0
| PyVal.rat q => q ≠ 0
| PyVal.bool b => b
| PyVal.none => false
| PyVal.dict fs => !fs.isEmpty
| PyVal.arr xs => !xs.isEmpty

mutual
/-- Python `repr` of a value (used by `str` on containers).  The rendering of
numbers is approximate (no claim depends on it); strings are quoted. -/
def pyRepr : PyVal → String
| PyVal.str s => "\x27" ++ s ++ "\x27"
| PyVal.int n => toString n
| PyVal.rat q => toString q
| PyVal.bool b => if b then ("True") else ("False")
| PyVal.none => "None"
| PyVal.dict fs => "\x7b" ++ pyReprFields fs ++ "\x7d"
| PyVal.arr xs => "[" ++ pyReprList xs ++ "]"

/-- Renders the fields of a dict, comma separated. -/
def pyReprFields : List (String × PyVal) → String
| [] => ""
| [kv] => "\x27" ++ kv.1 ++ "\x27: " ++ pyRepr kv.2
| kv :: rest => "\x27" ++ kv.1 ++ "\x27: " ++ pyRepr kv.2 ++ ", " ++ pyReprFields rest

/-- Renders the items of a list, comma separated. -/
def pyReprList : List PyVal → String
| [] => ""
| [v] => pyRepr v
| v :: rest => pyRepr v ++ ", " ++ pyReprList rest
end

/-- Python `str(v)` (used by f-string interpolation). -/
def pyStr : PyVal → String
| PyVal.str s => s
| v => pyRepr v

/-- Python substring membership `needle in hay` on strings. -/
def strContains (hay needle : String) : Bool :=
  (List.range (hay.data.length + 1)).any
    (fun i => needle.data.isPrefixOf (hay.data.drop i))

/-- Python `s.strip()`: drop leading and trailing whitespace (Python also
strips a few exotic Unicode whitespace characters; no claim depends on
those).  Defined on the character list so that it evaluates by reduction. -/
def pyStrip (s : String) : String :=
  String.mk (((s.data.dropWhile Char.isWhitespace).reverse.dropWhile
    Char.isWhitespace).reverse)

/-- Python `s.lower()` (ASCII case mapping, as in the messages involved). -/
def pyLower (s : String) : String := String.mk (s.data.map Char.toLower)

/-- Python `s.startswith(pre)`. -/
def pyStartsWith (s pre : String) : Bool := pre.data.isPrefixOf s.data

/-- Python `splitlines`, modelled as splitting on newline characters. -/
def splitLines (s : String) : List String := (s.data.splitOn '\n').map String.mk

/-!
### `app/utils/chat_handler.py`

`generate_response` calls the Groq client; on success it returns (the JSON
serialization of) a success envelope, on `GroqError` it classifies the
exception message into an error code by substring heuristics and returns an
error envelope, and on any other exception it returns a fixed
`AI_UNAVAILABLE` envelope.  The envelopes are modelled by their JSON values
(serialization with `json.dumps` is left abstract: the callers immediately
`json.loads` them back).
-/

/-- The heuristic mapping from a `GroqError` message to an error code
(`chat_handler.py`, lines 61-68): authorization indicators are checked first,
then rate-limit indicators, then unavailability indicators. -/
def errorCodeForMessage (msg : String) : String :=
  let lower := pyLower msg
  if strContains msg ("401") || strContains lower ("unauthor") || strContains lower ("auth")
    then ("AI_AUTH_ERROR")
  else if strContains lower ("rate") || strContains msg ("429") then ("AI_RATE_LIMIT")
  else if strContains msg ("503") || strContains lower ("unavail") || strContains lower ("timeout")
    then ("AI_UNAVAILABLE")
  else ("AI_SERVICE_ERROR")

/-- The error envelope `generate_response` returns when the Groq call raises a
`GroqError` with message `msg` (`chat_handler.py`, lines 70-77). -/
def generate_response_groq_error (msg : String) : PyVal :=
  PyVal.dict
    [("status", PyVal.str ("error")),
     ("error", PyVal.dict
        [("message", PyVal.str msg),
         ("code", PyVal.str (errorCodeForMessage msg))])]

/-- The success envelope `generate_response` returns for reply text `content`
(`chat_handler.py`, lines 46-51). -/
def generate_response_success (content : PyVal) : PyVal :=
  PyVal.dict
    [("status", PyVal.str ("success")),
     ("data", PyVal.dict [("response", content)])]

/-!
### `app/utils/prompt_builder.py` — language identification

The `langdetect` classifiers `detect_langs` and `detect` are external; they are
modelled as function parameters.  `detect_langs` returns a ranked candidate
list (language code, probability) or raises (`Except.error`); `detect`
returns a single code or raises.  Probabilities are exact rationals.
-/

/-- Abstract `langdetect.detect_langs`. -/
abbrev DetectLangs := String → Except Unit (List (String × Rat))

/-- Abstract `langdetect.detect`. -/
abbrev Detect1 := String → Except Unit String

/-- `SUPPORTED_LANGUAGE_CODES` (`prompt_builder.py`, line 8; used only
through membership). -/
def SUPPORTED_LANGUAGE_CODES : List String := ["en", "ko", "ja"]

/-- `MIN_CHARS_FOR_RELIABLE_DETECTION` (line 11). -/
def MIN_CHARS_FOR_RELIABLE_DETECTION : Nat := 15

/-- `ENGLISH_SHORT_GREETINGS` (lines 12-15; used only through membership). -/
def ENGLISH_SHORT_GREETINGS : List String :=
  ["hi", "hello", "hey", "yo", "sup", "morning", "good morning",
   "good night", "good afternoon", "good evening", "how are you"]

/-- The per-character test of `_script_lang`: Hiragana, Katakana and CJK
Unified Ideographs map to `ja`, Hangul syllables to `ko`, in the check order
of the source. -/
def scriptCharLang (ch : Char) : Option String :=
  if 0x3040 ≤ ch.toNat ∧ ch.toNat ≤ 0x309f then some ("ja")
  else if 0x30a0 ≤ ch.toNat ∧ ch.toNat ≤ 0x30ff then some ("ja")
  else if 0x4e00 ≤ ch.toNat ∧ ch.toNat ≤ 0x9fff then some ("ja")
  else if 0xac00 ≤ ch.toNat ∧ ch.toNat ≤ 0xd7af then some ("ko")
  else Option.none

/-- `_script_lang` (lines 17-31): scan the characters in order and return the
language of the first character falling in one of the script blocks. -/
def script_lang (s : String) : Option String := s.data.findSome? scriptCharLang

/-- `_prob_detect` (lines 33-45): run `detect_langs`; on an exception or an
empty candidate list yield nothing; otherwise accept the top candidate
exactly when its probability is at least 0.80 and its code is supported. -/
def prob_detect (dl : DetectLangs) (s : String) : Option String :=
  match dl s with
  | Except.error _ => Option.none
  | Except.ok [] => Option.none
  | Except.ok (top :: _) =>
    if (4 : Rat)/5 ≤ top.2 ∧ top.1 ∈ SUPPORTED_LANGUAGE_CODES then some top.1
    else Option.none

/-- Tiers 2-4 of the detection cascade run on one (already stripped,
non-empty) text (lines 74-92, repeated verbatim for history lines at
110-124): short texts and listed greetings are English; texts of length at
least `MIN_CHARS_FOR_RELIABLE_DETECTION` get the probabilistic tier; finally
the best-effort single detector, accepted only for supported codes. -/
def detectTiersRest (dl : DetectLangs) (d1 : Detect1) (msg : String) : Option String :=
  if msg.length < 4 || ENGLISH_SHORT_GREETINGS.contains (pyLower msg) then some ("en")
  else
    match (if MIN_CHARS_FOR_RELIABLE_DETECTION ≤ msg.length
           then prob_detect dl msg else Option.none) with
    | some lang => some lang
    | Option.none =>
      match d1 msg with
      | Except.ok det =>
        if det ∈ SUPPORTED_LANGUAGE_CODES then some det else Option.none
      | Except.error _ => Option.none

/-- The full detection cascade on one stripped, non-empty text: script sniff
first (lines 70-72 / 105-107), then `detectTiersRest`.  Yields `none` when
every tier is inconclusive. -/
def detectTiers (dl : DetectLangs) (d1 : Detect1) (msg : String) : Option String :=
  match script_lang msg with
  | some sc =>
    if sc ∈ SUPPORTED_LANGUAGE_CODES then some sc else detectTiersRest dl d1 msg
  | Option.none => detectTiersRest dl d1 msg

/-- The text after the first `:` of a line (`ln.split(":", 1)[1]`). -/
def afterFirstColon (s : String) : String :=
  String.mk ((s.data.dropWhile (fun c => c ≠ ':')).drop 1)

/-- The history scan of lines 97-127: strip the snippet lines, drop empty
ones, walk them in reverse, and return the stripped text after the colon of
the first line starting with `"{owner_name}:"` whose text is non-empty
(`if not prev_msg: continue` skips owner lines with an empty payload and
keeps scanning older lines).  Python `splitlines` is modelled as splitting
on newline characters. -/
def findOwnerLine (owner_name memory_snippet : String) : Option String :=
  (((splitLines memory_snippet).map pyStrip).filter (fun ln => ln ≠ "")).reverse.findSome?
    (fun ln =>
      if pyStartsWith ln (owner_name ++ ":") then
        let prev := pyStrip (afterFirstColon ln)
        if prev = "" then Option.none else some prev
      else Option.none)

/-- `_detect_language_from_message` (lines 48-132): strip the message; if
non-empty, run the tier cascade on it; if that is inconclusive and both the
memory snippet and the owner name are truthy, run the same cascade on the
most recent owner history line (the loop breaks after that line, so an
inconclusive history line falls to the default); otherwise return the safe
default `"en"`. -/
def detect_language_from_message (dl : DetectLangs) (d1 : Detect1)
    (message owner_name memory_snippet : String) : String :=
  let msg := pyStrip message
  match (if msg ≠ "" then detectTiers dl d1 msg else Option.none) with
  | some lang => lang
  | Option.none =>
    if memory_snippet ≠ "" ∧ owner_name ≠ "" then
      match findOwnerLine owner_name memory_snippet with
      | some prev => (detectTiers dl d1 prev).getD ("en")
      | Option.none => "en"
    else ("en")

/-!
### `app/utils/prompt_builder.py` — prompt assembly

The trait engines (`BehaviorEngine`, `PersonalityEngine`, `BreedEngine`,
`LifestageEngine` from `app/utils/pet_logic/`) are not part of the core
sources; the spec treats them as external trait adapters (contract only:
a mood label and a modifier string).  They are modelled by the abstract
record `Engines`.  Python exceptions raised while assembling the prompt are
modelled by `PyErr`.
-/

/-- Exceptions `build_pet_prompt` can raise. -/
inductive PyErr where
| attributeError
| valueError
| unboundLocalError
deriving DecidableEq

/-- The dict of floated vitals handed to `BehaviorEngine`
(`prompt_builder.py`, lines 197-205). -/
structure BehaviorInput where
  hunger : Rat
  energy : Rat
  health : Rat
  stress : Rat
  cleanliness : Rat
  happiness : Rat
  is_sick : PyVal

/-- `BehaviorEngine(...).get_summary()`: a mood label and a modifier. -/
structure BehaviorSummary where
  mood : String
  modifier : String

/-- The external trait adapters: `behavior` is
`BehaviorEngine(input).get_summary()`, `personality` is
`PersonalityEngine(p).get_summary()["modifier"]`, `breed` is
`BreedEngine(b).get_summary()["modifier"]`, and `lifestage` is
`LifestageEngine(stage).get_summary()["summary"]`. -/
structure Engines where
  behavior : BehaviorInput → BehaviorSummary
  personality : PyVal → String
  breed : PyVal → String
  lifestage : String → String

/-- Python `str.capitalize()`: first character upper-cased, the rest
lower-cased. -/
def pyCapitalize (s : String) : String :=
  match s.data with
  | [] => ""
  | c :: rest => String.mk (c.toUpper :: rest.map Char.toLower)

/-- The numeric value of a digit list (most significant first; 0 when
empty — callers check emptiness). -/
def digitsVal (cs : List Char) : Nat :=
  cs.foldl (fun acc c => acc * 10 + (c.toNat - 48)) 0

/-- Python `float(s)` on a string, as an exact rational: optional sign, an
integer part and an optional fractional part (at least one of them
non-empty).  Exponents, `inf`/`nan` and underscores are not modelled — no
claim depends on them. -/
def parseFloatQ (s : String) : Option Rat :=
  let t := pyStrip s
  let (sign, body) :=
    match t.data with
    | '-' :: rest => ((-1 : Rat), rest)
    | '+' :: rest => ((1 : Rat), rest)
    | cs => ((1 : Rat), cs)
  match body.splitOn '.' with
  | [ip] =>
    if ip ≠ [] ∧ ip.all Char.isDigit then some (sign * (digitsVal ip : Rat))
    else Option.none
  | [ip, fp] =>
    if (ip ≠ [] ∨ fp ≠ []) ∧ ip.all Char.isDigit ∧ fp.all Char.isDigit then
      some (sign * ((digitsVal ip : Rat) + (digitsVal fp : Rat) / ((10 : Rat) ^ fp.length)))
    else Option.none
  | _ => Option.none

/-- Python `float(v)`: numbers and booleans convert, strings are parsed,
anything else raises (modelled as `none`). -/
def pyFloat : PyVal → Option Rat
| PyVal.int n => some (n : Rat)
| PyVal.rat q => some q
| PyVal.bool b => some (if b then 1 else 0)
| PyVal.str s => parseFloatQ s
| _ => Option.none

/-- The `behavior_engine_input` dict of lines 197-205: each vital is fetched
with its default and floated; a value `float()` rejects raises `ValueError`
(`none` here); `is_sick` is passed through raw with default `"0"`. -/
def vitalsOf (st : Doc) : Option BehaviorInput :=
  match pyFloat (dgetD st ("hunger_level") (PyVal.rat 0)),
        pyFloat (dgetD st ("energy_level") (PyVal.rat 0)),
        pyFloat (dgetD st ("health_level") (PyVal.rat 100)),
        pyFloat (dgetD st ("stress_level") (PyVal.rat 0)),
        pyFloat (dgetD st ("cleanliness_level") (PyVal.rat 100)),
        pyFloat (dgetD st ("happiness_level") (PyVal.rat 100)) with
  | some hu, some en, some he, some sr, some cl, some ha =>
    some ⟨hu, en, he, sr, cl, ha, dgetD st ("is_sick") (PyVal.str ("0"))⟩
  | _, _, _, _, _, _ => Option.none

/-- `hibernating = pet_status.get("hibernation_mode") == "1"` (line 209):
true exactly for the string value `"1"` (Python `==` between a string and a
non-string is false). -/
def hibernationFlag (st : Doc) : Bool :=
  match dgetD st ("hibernation_mode") PyVal.none with
  | PyVal.str s => s == "1"
  | _ => false

/-- The hibernation override appended as rule 1 when the hibernation flag is
set (line 229). -/
def hibernationPrimaryDirective : String :=
  "1. **Primary State:** You are hibernating. Your response MUST be sleepy, minimal, and perhaps confused about being woken up.\n"

/-- The vitals-derived primary directive appended as rule 1 otherwise
(line 231). -/
def primaryStateDirective (modifier : String) : String :=
  "1. **Primary State:** " ++ modifier ++ "\n"

/-- The two header lines of the response directive block (lines 225-226). -/
def directiveHeader : String :=
  "--- RESPONSE DIRECTIVE (ABSOLUTE RULES) ---\nYour response is governed by a strict hierarchy. Follow these rules in order:\n"

/-- The ordered rule lines of the response directive (lines 228-236):
primary state (hibernation override or behavioral modifier), then the
personality, breed and lifestage filters, then the owner-profile reminder. -/
def directive_rules (hibernating : Bool) (behaviorModifier : String)
    (personality : String) (personalityModifier : String)
    (breed : String) (breedModifier : String)
    (age_stage : String) (lifestageSummary : String) : List String :=
  [ (if hibernating then hibernationPrimaryDirective
     else primaryStateDirective behaviorModifier),
    "2. **Personality Filter:** After obeying Rule #1, apply your \x27" ++ personality
      ++ "\x27 personality. (" ++ personalityModifier ++ ")\n",
    "3. **Breed Filter:** Let your \x27" ++ breed
      ++ "\x27 breed traits subtly influence your actions. (" ++ breedModifier ++ ")\n",
    "4. **Lifestage Filter:** Act your age. You are a \x27" ++ age_stage
      ++ "\x27. (" ++ lifestageSummary ++ ")\n",
    "5. **Absoultly Remember the Owner Profile and User Preferences.**\n" ]

/-- `lifestage_map.get(lifestage_id, "Adult")` (lines 166-168). -/
def lifestage_map (id : String) : String :=
  if id == "1" then ("Baby") else if id == "2" then ("Teen")
  else if id == "3" then ("Adult") else ("Adult")

/-- `pet.get("pet_type") or pet.get("species", "pet")` (line 161). -/
def petTypeRaw (pet : Doc) : PyVal :=
  let ptv := dgetD pet ("pet_type") PyVal.none
  if truthy ptv then ptv else dgetD pet ("species") (PyVal.str ("pet"))

/-- The rule lines `build_pet_prompt` renders for a truthy `pet_status`:
the vitals are floated (failure = `ValueError` = `none`), the behavior
summary is taken from the abstract engine, and `directive_rules` is applied
to the raw pet fields exactly as in lines 161-236. -/
def promptDirectiveRules (E : Engines) (pet : Doc) (st : Doc) : Option (List String) :=
  (vitalsOf st).map (fun vit =>
    directive_rules (hibernationFlag st) ((E.behavior vit).modifier)
      (pyStr (dgetD pet ("personality") (PyVal.str ("Gentle"))))
      (E.personality (dgetD pet ("personality") (PyVal.str ("Gentle"))))
      (pyStr (dgetD pet ("breed") (PyVal.str ("Unknown Breed"))))
      (E.breed (dgetD pet ("breed") (PyVal.str ("Unknown Breed"))))
      (lifestage_map (pyStr (dgetD pet ("life_stage_id") (PyVal.str ("3")))))
      (E.lifestage (lifestage_map (pyStr (dgetD pet ("life_stage_id") (PyVal.str ("3")))))))

/-- The `status_block` f-string of lines 211-222 after `.strip()` (the
8-space indentation of the interior lines is part of the literal). -/
def statusBlock (st : Doc) (mood : String) (is_sick : PyVal) (hibernating : Bool) : String :=
  "--- CURRENT PET STATUS (FOR CONTEXT) ---" ++
  "\n        Mood: " ++ pyCapitalize mood ++
  "\n        Happiness: " ++ pyStr (dgetD st ("happiness_level") (PyVal.str ("100.0"))) ++
  "\n        Health: " ++ pyStr (dgetD st ("health_level") (PyVal.str ("100.0"))) ++
  "\n        Energy: " ++ pyStr (dgetD st ("energy_level") (PyVal.str ("100.0"))) ++
  "\n        Hunger: " ++ pyStr (dgetD st ("hunger_level") (PyVal.str ("100.0"))) ++
  "\n        Cleanliness: " ++ pyStr (dgetD st ("cleanliness_level") (PyVal.str ("100.0"))) ++
  "\n        Stress: " ++ pyStr (dgetD st ("stress_level") (PyVal.str ("0.0"))) ++
  "\n        Sick: " ++ (match is_sick with
                         | PyVal.str s => if s == "1" then ("Yes") else ("No")
                         | _ => "No") ++
  "\n        Hibernating: " ++ (if hibernating then ("Yes") else ("No"))

/-- The owner profile block of lines 184-193. -/
def ownerProfileBlock (owner_name : String) (bio : Doc) : String :=
  String.intercalate ("\n")
    ([ "Owner Name: " ++ owner_name ]
     ++ (if truthy (dgetD bio ("age") PyVal.none)
         then ["Age: " ++ pyStr (dgetD bio ("age") PyVal.none)] else [])
     ++ (if truthy (dgetD bio ("gender") PyVal.none)
         then ["Gender: " ++ pyStr (dgetD bio ("gender") PyVal.none)] else [])
     ++ (if truthy (dgetD bio ("profession") PyVal.none)
         then ["Profession: " ++ pyStr (dgetD bio ("profession") PyVal.none)] else []))

/-- `lang_map.get(detected_lang.lower(), detected_lang)` (lines 246-251). -/
def langName (code : String) : String :=
  let l := pyLower code
  if l == "en" then ("English") else if l == "ko" then ("Korean")
  else if l == "ja" then ("Japanese") else code

/-- The `language_rule_text` f-string of lines 254-263 (not stripped). -/
def languageRuleText (language_name detected_lang message : String) : String :=
  "\n— Language Rule —\nYour entire response MUST be in the user\x27s language: "
  ++ language_name ++ " (detected: " ++ detected_lang
  ++ ").\nFollow these precise rules:\n1. Respond in " ++ language_name
  ++ " exactly. Do NOT translate the user\x27s message into another language.\n2. If the user\x27s message contains multiple languages, prefer the language of the last user sentence.\n3. If you cannot reliably determine the language, respond in English.\n\n   The USER\x27S MESSAGE: \"" ++ message ++ "\"\n"

/-- The final f-string of lines 266-301, after `.strip()`. -/
def renderPrompt (owner_name resp_directive status_block memory_section
    breed_modifier owner_profile_block knowledge_section language_rule_text : String) : String :=
  pyStrip ("\nCONTEXT FOR YOUR RESPONSE:\nYour owner, " ++ owner_name
   ++ ", just sent you a message. You must respond based on your current status and the rules below.\n— Response Guidelines (MOST IMPORTANT) —\nYour reply MUST use this exact format: (emotion) \x7bmotion\x7d <sound> Your text here.\n1. **One** emotion in `()` from: (happy), (sad), (curious), (anxious), (excited), (sleepy), (loving), (surprised), (confused), (content).\n2. **One** physical motion in `\x7b\x7d` from: \x7bbow head\x7d, \x7bcrouch down\x7d, \x7bjump up\x7d, \x7blick\x7d, \x7blie down\x7d, \x7bpaw scratching\x7d, \x7bperk ears\x7d, \x7braise paw\x7d, \x7broll over showing belly\x7d, \x7bshake body\x7d, \x7bsit\x7d, \x7bsniff\x7d, \x7bchase tail\x7d, \x7bstretch\x7d, \x7btilt head\x7d, \x7bwag tail\x7d.\n3. **One** sound in `<>` from: <growl>, <whimper>, <bark>, <pant>, <yawn>, <sniff>, <yip>, <meow>, <purr>.\n- Your main text reply must be under 80 characters.\n- Do NOT use emojis. Do NOT talk about politics, religion, or other complex human topics.\n\n"
   ++ resp_directive ++ "\n" ++ status_block
   ++ "\nUse the memory below for multiple-turn context if relevant:\n"
   ++ memory_section ++ "\n\n- Breed Behavior -\n" ++ breed_modifier
   ++ "\n\n**ABSOLUTLY REMEMBER THE OWNER PROFILE AND USER PREFERENCES**\n\n— Owner Profile —\n"
   ++ owner_profile_block ++ "\n\n- User Preferences -\n" ++ knowledge_section
   ++ "\n\n\n\n\n— Personality & Behavior Rules —\n- Energy + Mood = determines tone (e.g., calm, hyper, clingy, etc.) \n\n**MOST IMPORTANT: Follow the language rules below.**\n"
   ++ language_rule_text
   ++ "\n\n**FINAL CHECK: Respond in the user\x27s language and follow the required format.**\n")

/-- Well-formedness of the `pet` record needed before the status branch:
`(pet.get("pet_type") or pet.get("species", "pet")).capitalize()` needs a
string (line 161), and `pet.get("knowledge_base", {}).get(...)` needs the
stored `knowledge_base` to be a dict (lines 163-164); otherwise
`build_pet_prompt` raises `AttributeError` before reaching the return. -/
def petWellFormed (pet : Doc) : Bool :=
  (match petTypeRaw pet with | PyVal.str _ => true | _ => false)
  && (match dgetD pet ("knowledge_base") (PyVal.dict []) with
      | PyVal.dict _ => true | _ => false)

/-- `build_pet_prompt` (lines 152-301).  `response_directive` and
`status_block` are assigned only inside the `if pet_status:` branch (truthy
= present and non-empty); `status_block` is pre-initialised to `""` but
`response_directive` is not, and both are interpolated into the final
f-string, so a falsy `pet_status` raises `UnboundLocalError` at the return
expression (after the total memory/knowledge/language computations). -/
def build_pet_prompt (E : Engines) (dl : DetectLangs) (d1 : Detect1)
    (pet : Doc) (owner_name0 : String) (memory_snippet : String)
    (pet_status : Option Doc) (biography_snippet : Option Doc)
    (message : String) : Except PyErr String := do
  let _pet_type ← (match petTypeRaw pet with
    | PyVal.str s => Except.ok (pyCapitalize s)
    | _ => Except.error PyErr.attributeError)
  let knowledge_base ← (match dgetD pet ("knowledge_base") (PyVal.dict []) with
    | PyVal.dict kb => Except.ok kb
    | _ => Except.error PyErr.attributeError)
  let owner_name := match getField knowledge_base ("owner_name") with
    | some v => pyStr v
    | Option.none => owner_name0
  -- personality, breed and age_stage (lines 165-178) reach the directive
  -- through promptDirectiveRules below; breed also feeds the breed-behavior
  -- section of the rendered prompt
  let breed := dgetD pet ("breed") (PyVal.str ("Unknown Breed"))
  let bio := biography_snippet.getD []
  let owner_profile_block := ownerProfileBlock owner_name bio
  -- the `if pet_status:` branch (lines 195-236)
  let statusPart ← (match pet_status with
    | some st =>
      if st.isEmpty then Except.ok (Option.none : Option (String × String))
      else
        match vitalsOf st, promptDirectiveRules E pet st with
        | some vit, some rules =>
          Except.ok (some
            (statusBlock st ((E.behavior vit).mood) vit.is_sick (hibernationFlag st),
             directiveHeader ++ String.join rules))
        | _, _ => Except.error PyErr.valueError
    | Option.none => Except.ok Option.none)
  let memory_section :=
    if memory_snippet ≠ "" then ("\n\n--- Memory Snippet ---\n") ++ memory_snippet else ("")
  let knowledge_section :=
    if !bio.isEmpty then ("\n\n--- What You Know About Your Owner ---\n") ++ pyStr (PyVal.dict bio)
    else ("")
  let detected_lang := detect_language_from_message dl d1 message owner_name memory_snippet
  let language_name := langName detected_lang
  let language_rule_text := languageRuleText language_name detected_lang message
  match statusPart with
  | some (status_block, resp_directive) =>
    Except.ok (renderPrompt owner_name resp_directive status_block memory_section
      (E.breed breed) owner_profile_block knowledge_section language_rule_text)
  | Option.none =>
    -- `response_directive` was never assigned: the return f-string raises
    Except.error PyErr.unboundLocalError

/-!
### `app/utils/fact_extractor.py`

`json.loads` is the external JSON parser, modelled as an abstract
`loads : String → Option PyVal` (`none` = `json.JSONDecodeError`).  The
completion adapter reply is the string argument; the biography store is
observed through the outcome (`wrote fields` = the single
`update_one({"user_id": ...}, {"$set": fields})` call).
-/

/-- Abstract `json.loads` (`none` models a raised `JSONDecodeError`). -/
abbrev JsonLoads := String → Option PyVal

/-- The observable outcome of one `extract_and_save_user_facts` run:
either the coroutine returns normally without touching the store, or it
returns normally after one `$set` write with the given fields, or an
exception escapes to the caller. -/
inductive ExtractOutcome where
| raisedNameError
| noWrite
| wrote (fields : Doc)

/-- Python `s[start:end+1]` between the first `'{'` (`find`) and the last
`'}'` (`rfind`) of `s` (`fact_extractor.py`, lines 50-57); `none` when
either brace is absent (`find`/`rfind` returned `-1`).  When the last `'}'`
precedes the first `'{'` the slice is empty, as in Python. -/
def braceSlice (s : String) : Option String :=
  let cs := s.data
  match cs.findIdx? (fun c => c = '{'), cs.reverse.findIdx? (fun c => c = '}') with
  | some start, some revEnd =>
    let stop := cs.length - 1 - revEnd
    some (String.mk ((cs.drop start).take (stop + 1 - start)))
  | _, _ => Option.none

/-- The sanitizing loop of lines 67-78: keys are strings by construction
(JSON object keys), a key whose `strip()` is empty is discarded with a
warning, every other pair is written to `update_fields` under
`biography.<stripped key>` (dict assignment: a repeated sanitized key
overwrites in place). -/
def update_fields (facts : Doc) : Doc :=
  facts.foldl
    (fun acc kv =>
      if pyStrip kv.1 ≠ "" then setField acc ("biography." ++ pyStrip kv.1) kv.2 else acc)
    []

/-- Lines 86-87: when a `name` fact survived sanitization, the top-level
`first_name` field is additionally set to the same value. -/
def update_fields_with_alias (facts : Doc) : Doc :=
  let uf := update_fields facts
  if present uf ("biography.name") then
    setField uf ("first_name") (dgetD uf ("biography.name") PyVal.none)
  else uf

/-- Whether `loads` recovered a non-empty JSON object (line 60,
`isinstance(extracted_facts, dict) and extracted_facts`). -/
def isNonemptyObj : Option PyVal → Bool
| some (PyVal.dict (_ :: _)) => true
| _ => false

/-!
`extract_and_save_user_facts` (lines 24-101) is embedded as a function of the
adapter reply string and the JSON parser; the stage functions below name
successive pieces of its single control flow.  Every `return` without an
`update_one` call, and every exception caught by the `except` clauses
(`AttributeError` from `.get`/`.strip` on unexpected shapes, the second
`json.loads` failing), yields `noWrite`: the coroutine returns normally with
the store untouched.  One path escapes: when the first `json.loads` raises,
the log message of the `except json.JSONDecodeError` handler reads
`actual_llm_output`, which is not yet bound, so the handler itself raises
`NameError` — modelled as `raisedNameError`.
-/

/-- Lines 58-92 applied to the result of the second `json.loads` on the brace
slice `sub`. -/
def extractParsedFacts (parsed : Option PyVal) : ExtractOutcome :=
  match parsed with
  | Option.none => ExtractOutcome.noWrite  -- JSONDecodeError caught (line 95)
  | some extracted =>
    match extracted with
    | PyVal.dict facts =>
      if facts.isEmpty then ExtractOutcome.noWrite  -- line 60, `not extracted_facts`
      else
        if (update_fields facts).isEmpty then ExtractOutcome.noWrite  -- line 81
        else ExtractOutcome.wrote (update_fields_with_alias facts)
    | _ => ExtractOutcome.noWrite  -- line 60, not a dict

/-- Lines 49-57 applied to `actual_llm_output` (already known truthy): a
non-string raises `AttributeError` at `.strip()` (caught, line 97), a missing
brace returns at line 53-55, otherwise the slice goes to `json.loads`. -/
def extractFromOutput (loads : JsonLoads) (out : PyVal) : ExtractOutcome :=
  match out with
  | PyVal.str s =>
    match braceSlice (pyStrip s) with
    | Option.none => ExtractOutcome.noWrite  -- line 53
    | some sub => extractParsedFacts (loads sub)
  | _ => ExtractOutcome.noWrite  -- `.strip()` on a non-string: AttributeError caught

/-- Lines 43-47 applied to the value of the `data` field of the envelope:
`.get("response")` on a non-dict raises `AttributeError` (caught, line 97), a
falsy `actual_llm_output` returns at line 45-47, otherwise processing
continues on the reply text. -/
def extractFromData (loads : JsonLoads) (data : PyVal) : ExtractOutcome :=
  match data with
  | PyVal.dict ddata =>
    if !truthy (dgetD ddata ("response") PyVal.none) then ExtractOutcome.noWrite  -- line 45
    else extractFromOutput loads (dgetD ddata ("response") PyVal.none)
  | _ => ExtractOutcome.noWrite  -- `.get` on a non-dict `data`: AttributeError caught

/-- Lines 38-47 applied to a successfully parsed envelope dict. -/
def extractFromEnvelope (loads : JsonLoads) (env : Doc) : ExtractOutcome :=
  -- `response_data.get("status") == "error"` (line 38)
  if (match dgetD env ("status") PyVal.none with
      | PyVal.str s => s == "error"
      | _ => false) then ExtractOutcome.noWrite
  else
    -- `response_data.get("data", {}).get("response")` (line 43)
    extractFromData loads (dgetD env ("data") (PyVal.dict []))

/-- The whole pipeline: parse the adapter reply (a failure here escapes as
`NameError`, see above), then process the envelope. -/
def extract_and_save_user_facts (loads : JsonLoads) (reply : String) : ExtractOutcome :=
  match loads reply with
  | Option.none => ExtractOutcome.raisedNameError
  | some responseData =>
    match responseData with
    | PyVal.dict env => extractFromEnvelope loads env
    | _ => ExtractOutcome.noWrite  -- `.get` on a non-dict reply: AttributeError caught

/-!
### Lemmas about documents, `setField` and `applySet`
-/

theorem present_iff (d : Doc) (k : String) :
    present d k = true ↔ ∃ p ∈ d, p.1 = k := by
  simp [present, List.any_eq_true, beq_iff_eq]

theorem find?_setField_self (d : Doc) (k : String) (v : PyVal) :
    (setField d k v).find? (fun p => p.1 == k) = some (k, v) := by
  induction d with
  | nil => simp [setField, List.find?_cons]
  | cons p d ih =>
    by_cases h : p.1 = k
    · simp [setField, h, List.find?_cons]
    · have hb : (p.1 == k) = false := by simpa using h
      simp [setField, hb, List.find?_cons, ih]

theorem find?_setField_other (d : Doc) (k k' : String) (v : PyVal)
    (hk : k' ≠ k) :
    (setField d k v).find? (fun p => p.1 == k')
      = d.find? (fun p => p.1 == k') := by
  have hkk : (k == k') = false := by simpa using fun h => hk h.symm
  induction d with
  | nil => simp [setField, List.find?_cons, hkk]
  | cons p d ih =>
    by_cases h : p.1 = k
    · have hb : (p.1 == k) = true := by simpa using h
      have hb2 : (p.1 == k') = false := by rw [show p.1 = k from h]; exact hkk
      simp [setField, hb, List.find?_cons, hkk, hb2]
    · have hb : (p.1 == k) = false := by simpa using h
      by_cases h2 : (p.1 == k') = true
      · simp [setField, hb, List.find?_cons, h2]
      · have hb2 : (p.1 == k') = false := by simpa using h2
        simp [setField, hb, List.find?_cons, hb2, ih]

theorem setField_eq_of_find (d : Doc) (k : String) (v : PyVal)
    (h : d.find? (fun p => p.1 == k) = some (k, v)) : setField d k v = d := by
  induction d with
  | nil => simp [List.find?_nil] at h
  | cons p d ih =>
    by_cases hp : p.1 = k
    · have hb : (p.1 == k) = true := by simpa using hp
      simp only [List.find?_cons, hb] at h
      have hpe : p = (k, v) := by simpa using h
      simp [setField, hb, hpe]
    · have hb : (p.1 == k) = false := by simpa using hp
      simp only [List.find?_cons, hb] at h
      simp [setField, hb, ih h]

theorem getField_setField_self (d : Doc) (k : String) (v : PyVal) :
    getField (setField d k v) k = some v := by
  rw [getField, find?_setField_self]
  rfl

theorem getField_setField_other (d : Doc) (k k' : String) (v : PyVal)
    (hk : k' ≠ k) : getField (setField d k v) k' = getField d k' := by
  rw [getField, find?_setField_other d k k' v hk, getField]

theorem present_eq_isSome (d : Doc) (k : String) :
    present d k = (getField d k).isSome := by
  induction d with
  | nil => rfl
  | cons p d ih =>
    by_cases h : p.1 = k
    · have hb : (p.1 == k) = true := by simpa using h
      simp [present, getField, List.any_cons, List.find?_cons, hb]
    · have hb : (p.1 == k) = false := by simpa using h
      simp only [present, getField, List.any_cons, List.find?_cons, hb]
      simpa [present, getField] using ih

theorem present_setField_self (d : Doc) (k : String) (v : PyVal) :
    present (setField d k v) k = true := by
  rw [present_eq_isSome, getField_setField_self]
  rfl

theorem present_setField_other (d : Doc) (k k' : String) (v : PyVal)
    (hk : k' ≠ k) : present (setField d k v) k' = present d k' := by
  rw [present_eq_isSome, getField_setField_other d k k' v hk, present_eq_isSome]

theorem keys_setField (d : Doc) (k : String) (v : PyVal) :
    keys (setField d k v)
      = if present d k = true then keys d else keys d ++ [k] := by
  induction d with
  | nil => simp [setField, keys, present]
  | cons p d ih =>
    by_cases h : p.1 = k
    · have hb : (p.1 == k) = true := by simpa using h
      have hcons : present (p :: d) k = true := by
        simp [present, List.any_cons, hb]
      rw [hcons]
      simp only [setField, hb, if_pos rfl, if_pos rfl]
      simp [keys, show p.1 = k from h]
    · have hb : (p.1 == k) = false := by simpa using h
      have hcons : present (p :: d) k = present d k := by
        simp [present, List.any_cons, hb]
      rw [hcons]
      by_cases hp : present d k = true
      · rw [if_pos hp]
        rw [if_pos hp] at ih
        simp only [setField, hb, Bool.false_eq_true, if_false]
        simpa [keys] using ih
      · rw [if_neg hp]
        rw [if_neg hp] at ih
        simp only [setField, hb, Bool.false_eq_true, if_false]
        simpa [keys] using ih

theorem not_present_iff (d : Doc) (k : String) :
    present d k = false ↔ k ∉ keys d := by
  rw [← Bool.not_eq_true, present_iff]
  constructor
  · intro h hk
    rcases List.mem_map.mp hk with ⟨p, hp, hpk⟩
    exact h ⟨p, hp, hpk⟩
  · intro h hex
    rcases hex with ⟨p, hp, hpk⟩
    exact h (List.mem_map.mpr ⟨p, hp, hpk⟩)

theorem nodup_keys_setField (d : Doc) (k : String) (v : PyVal)
    (h : (keys d).Nodup) : (keys (setField d k v)).Nodup := by
  rw [keys_setField]
  by_cases hp : present d k = true
  · simpa [hp] using h
  · rw [if_neg hp]
    have hk : k ∉ keys d := (not_present_iff d k).mp (by simpa using hp)
    simpa [List.nodup_append] using ⟨h, hk⟩

theorem mem_keys_setField (d : Doc) (k f : String) (v : PyVal)
    (h : f ∈ keys (setField d k v)) : f ∈ keys d ∨ f = k := by
  rw [keys_setField] at h
  by_cases hp : present d k = true
  · rw [if_pos hp] at h; exact Or.inl h
  · rw [if_neg hp] at h
    rcases List.mem_append.mp h with h1 | h1
    · exact Or.inl h1
    · exact Or.inr (by simpa using h1)

theorem applySet_cons (doc : Doc) (kv : String × PyVal) (fs : Doc) :
    applySet doc (kv :: fs) = applySet (setField doc kv.1 kv.2) fs := rfl

theorem getField_applySet_of_not_mem (fs : Doc) (doc : Doc) (k : String)
    (h : ∀ kv ∈ fs, kv.1 ≠ k) :
    getField (applySet doc fs) k = getField doc k := by
  induction fs generalizing doc with
  | nil => rfl
  | cons kv fs ih =>
    rw [applySet_cons, ih _ (fun p hp => h p (List.mem_cons_of_mem _ hp)),
      getField_setField_other]
    exact fun hk => h kv (List.mem_cons_self _ _) hk.symm

theorem find?_applySet_of_not_mem (fs : Doc) (doc : Doc) (k : String)
    (h : ∀ kv ∈ fs, kv.1 ≠ k) :
    (applySet doc fs).find? (fun p => p.1 == k)
      = doc.find? (fun p => p.1 == k) := by
  induction fs generalizing doc with
  | nil => rfl
  | cons kv fs ih =>
    rw [applySet_cons, ih _ (fun p hp => h p (List.mem_cons_of_mem _ hp)),
      find?_setField_other]
    exact fun hk => h kv (List.mem_cons_self _ _) hk.symm

theorem present_applySet_mono (fs : Doc) (doc : Doc) (k : String)
    (h : present doc k = true) : present (applySet doc fs) k = true := by
  induction fs generalizing doc with
  | nil => exact h
  | cons kv fs ih =>
    rw [applySet_cons]
    refine ih _ ?_
    by_cases hk : k = kv.1
    · subst hk; exact present_setField_self _ _ _
    · rw [present_setField_other _ _ _ _ hk]; exact h

/-- After applying a field set with pairwise-distinct keys, every field of
the set is literally the first occurrence of its key in the result. -/
theorem find?_applySet_mem (fs : Doc) (doc : Doc)
    (hnd : (keys fs).Nodup) :
    ∀ kv ∈ fs, (applySet doc fs).find? (fun p => p.1 == kv.1)
      = some (kv.1, kv.2) := by
  induction fs generalizing doc with
  | nil => intro kv hkv; cases hkv
  | cons a fs ih =>
    have hnd2 : (keys fs).Nodup := (List.nodup_cons.mp hnd).2
    have ha : a.1 ∉ keys fs := (List.nodup_cons.mp hnd).1
    intro kv hkv
    rcases List.mem_cons.mp hkv with hkv | hkv
    · subst hkv
      rw [applySet_cons,
        find?_applySet_of_not_mem fs _ kv.1
          (fun p hp hpk => ha (hpk ▸ List.mem_map.mpr ⟨p, hp, rfl⟩)),
        find?_setField_self]
    · exact ih _ hnd2 kv hkv

/-- Re-applying a field set whose fields already are the first occurrences of
their keys in the document changes nothing. -/
theorem applySet_eq_of_find (fs : Doc) (doc : Doc)
    (h : ∀ kv ∈ fs, doc.find? (fun p => p.1 == kv.1) = some (kv.1, kv.2)) :
    applySet doc fs = doc := by
  induction fs generalizing doc with
  | nil => rfl
  | cons a fs ih =>
    rw [applySet_cons,
      setField_eq_of_find doc a.1 a.2 (h a (List.mem_cons_self _ _))]
    exact ih _ (fun kv hkv => h kv (List.mem_cons_of_mem _ hkv))

/-- Applying the same field set twice is the same as applying it once,
provided its keys are pairwise distinct. -/
theorem applySet_idem (fs : Doc) (doc : Doc) (hnd : (keys fs).Nodup) :
    applySet (applySet doc fs) fs = applySet doc fs :=
  applySet_eq_of_find fs _ (find?_applySet_mem fs doc hnd)


/-!
### Lemmas about `update_fields` and string keys
-/

theorem nodup_keys_update_fields_aux (facts : Doc) (acc : Doc)
    (h : (keys acc).Nodup) :
    (keys (facts.foldl
      (fun acc kv =>
        if pyStrip kv.1 ≠ "" then setField acc ("biography." ++ pyStrip kv.1) kv.2 else acc)
      acc)).Nodup := by
  induction facts generalizing acc with
  | nil => exact h
  | cons kv fs ih =>
    rw [List.foldl_cons]
    by_cases hc : pyStrip kv.1 ≠ ""
    · rw [if_pos hc]; exact ih _ (nodup_keys_setField _ _ _ h)
    · rw [if_neg hc]; exact ih _ h

theorem nodup_keys_update_fields (facts : Doc) :
    (keys (update_fields facts)).Nodup :=
  nodup_keys_update_fields_aux facts [] List.nodup_nil

theorem nodup_keys_update_fields_with_alias (facts : Doc) :
    (keys (update_fields_with_alias facts)).Nodup := by
  unfold update_fields_with_alias
  by_cases hp : present (update_fields facts) ("biography.name") = true
  · rw [if_pos hp]
    exact nodup_keys_setField _ _ _ (nodup_keys_update_fields facts)
  · rw [if_neg hp]
    exact nodup_keys_update_fields facts

theorem mem_keys_update_fields_aux (facts : Doc) (acc : Doc) (f : String)
    (h : f ∈ keys (facts.foldl
      (fun acc kv =>
        if pyStrip kv.1 ≠ "" then setField acc ("biography." ++ pyStrip kv.1) kv.2 else acc)
      acc)) :
    f ∈ keys acc ∨ ∃ kv ∈ facts, pyStrip kv.1 ≠ "" ∧ f = "biography." ++ pyStrip kv.1 := by
  induction facts generalizing acc with
  | nil => exact Or.inl h
  | cons kv fs ih =>
    rw [List.foldl_cons] at h
    by_cases hc : pyStrip kv.1 ≠ ""
    · rw [if_pos hc] at h
      rcases ih _ h with hacc | ⟨p, hp, hne, hf⟩
      · rcases mem_keys_setField _ _ _ _ hacc with h1 | h1
        · exact Or.inl h1
        · exact Or.inr ⟨kv, List.mem_cons_self _ _, hc, h1⟩
      · exact Or.inr ⟨p, List.mem_cons_of_mem _ hp, hne, hf⟩
    · rw [if_neg hc] at h
      rcases ih _ h with hacc | ⟨p, hp, hne, hf⟩
      · exact Or.inl hacc
      · exact Or.inr ⟨p, List.mem_cons_of_mem _ hp, hne, hf⟩

theorem mem_keys_update_fields (facts : Doc) (f : String)
    (h : f ∈ keys (update_fields facts)) :
    ∃ kv ∈ facts, pyStrip kv.1 ≠ "" ∧ f = "biography." ++ pyStrip kv.1 := by
  rcases mem_keys_update_fields_aux facts [] f h with hacc | hex
  · cases hacc
  · exact hex

theorem mem_keys_update_fields_with_alias (facts : Doc) (f : String)
    (h : f ∈ keys (update_fields_with_alias facts)) :
    f = "first_name" ∨ ∃ kv ∈ facts, pyStrip kv.1 ≠ "" ∧ f = "biography." ++ pyStrip kv.1 := by
  unfold update_fields_with_alias at h
  by_cases hp : present (update_fields facts) ("biography.name") = true
  · rw [if_pos hp] at h
    rcases mem_keys_setField _ _ _ _ h with h1 | h1
    · exact Or.inr (mem_keys_update_fields facts f h1)
    · exact Or.inl h1
  · rw [if_neg hp] at h
    exact Or.inr (mem_keys_update_fields facts f h)

theorem string_data_append (a b : String) : (a ++ b).data = a.data ++ b.data := rfl

theorem biography_append_inj (a b : String)
    (h : "biography." ++ a = "biography." ++ b) : a = b := by
  have h2 : ("biography." ++ a).data = ("biography." ++ b).data := by rw [h]
  rw [string_data_append, string_data_append] at h2
  have h3 := List.append_cancel_left h2
  cases a with
  | mk da =>
    cases b with
    | mk db => exact congrArg String.mk h3

theorem biography_ne_first_name (a : String) :
    ("biography." ++ a) ≠ "first_name" := by
  intro h
  have h2 : ("biography.".data ++ a.data).head? = ("first_name".data).head? := by
    rw [← string_data_append, h]
  rcases hdd : "biography.".data with _ | ⟨c, cs⟩
  · exact absurd hdd (by decide)
  · rw [hdd] at h2
    have hc : c = 'b' := by
      have hh : ("biography.".data).head? = some 'b' := by decide
      rw [hdd] at hh
      simpa using hh
    have hrhs : ("first_name".data).head? = some 'f' := by decide
    rw [hrhs] at h2
    simp at h2
    rw [hc] at h2
    exact absurd h2 (by decide)


/-!
### Helper lemmas for the detection-tier claims
-/

/-- Tiers 2-4 on a text of non-empty trimmed length below 4 (and without
script characters) end at the short-text rule: English. -/
theorem detectTiers_short (dl : DetectLangs) (d1 : Detect1) (t : String)
    (hscript : script_lang t = Option.none) (hlen : t.length < 4) :
    detectTiers dl d1 t = some ("en") := by
  unfold detectTiers
  rw [hscript]
  simp [detectTiersRest, hlen]

/-- Below the reliability floor the probabilistic classifier is never
consulted by the tier cascade. -/
theorem detectTiersRest_indep (dlA dlB : DetectLangs) (d1 : Detect1) (t : String)
    (h : t.length < MIN_CHARS_FOR_RELIABLE_DETECTION) :
    detectTiersRest dlA d1 t = detectTiersRest dlB d1 t := by
  unfold detectTiersRest
  rw [if_neg (by omega : ¬ MIN_CHARS_FOR_RELIABLE_DETECTION ≤ t.length),
    if_neg (by omega : ¬ MIN_CHARS_FOR_RELIABLE_DETECTION ≤ t.length)]

theorem detectTiers_indep (dlA dlB : DetectLangs) (d1 : Detect1) (t : String)
    (h : t.length < MIN_CHARS_FOR_RELIABLE_DETECTION) :
    detectTiers dlA d1 t = detectTiers dlB d1 t := by
  unfold detectTiers
  cases hs : script_lang t with
  | none => exact detectTiersRest_indep dlA dlB d1 t h
  | some sc =>
    by_cases hsc : sc ∈ SUPPORTED_LANGUAGE_CODES
    · simp [hsc]
    · simp [hsc, detectTiersRest_indep dlA dlB d1 t h]

/-- When the probabilistic tier yields nothing, the cascade behaves as if
that tier were absent (a classifier that always raises). -/
theorem detectTiersRest_prob_none (dl : DetectLangs) (d1 : Detect1) (t : String)
    (h : prob_detect dl t = Option.none) :
    detectTiersRest dl d1 t
      = detectTiersRest (fun _ => Except.error ()) d1 t := by
  unfold detectTiersRest
  by_cases hg : MIN_CHARS_FOR_RELIABLE_DETECTION ≤ t.length
  · rw [if_pos hg, if_pos hg, h]
    rfl
  · rw [if_neg hg, if_neg hg]

theorem detectTiers_prob_none (dl : DetectLangs) (d1 : Detect1) (t : String)
    (h : prob_detect dl t = Option.none) :
    detectTiers dl d1 t = detectTiers (fun _ => Except.error ()) d1 t := by
  unfold detectTiers
  cases hs : script_lang t with
  | none => exact detectTiersRest_prob_none dl d1 t h
  | some sc =>
    by_cases hsc : sc ∈ SUPPORTED_LANGUAGE_CODES
    · simp [hsc]
    · simp [hsc, detectTiersRest_prob_none dl d1 t h]

/-- Fixed trait adapters used to instantiate universally quantified
claims at concrete inputs. -/
def engines0 : Engines :=
  ⟨fun _ => ⟨"excited", "You are bouncy and playful."⟩,
   fun _ => "pmod", fun _ => "bmod", fun _ => "lsum"⟩

/-- A probabilistic classifier that always raises. -/
def dlFail : DetectLangs := fun _ => Except.error ()

/-- A single-label classifier that always raises. -/
def d1Fail : Detect1 := fun _ => Except.error ()

/-!
### The claims
-/

/-- C1: for every call to `build_pet_prompt` with a non-empty `pet_status`
whose `hibernation_mode` field equals `"1"`, rule 1 of the rendered directive
hierarchy (the rule list `build_pet_prompt` joins into
`response_directive`) is the fixed hibernation override text — for every
choice of trait engines, hence regardless of the mood/modifier the vitals
would produce. -/
theorem hibernation_primary_directive_override (E : Engines) (pet st : Doc)
    (rules : List String) (_hne : st ≠ [])
    (hhib : getField st ("hibernation_mode") = some (PyVal.str ("1")))
    (hrules : promptDirectiveRules E pet st = some rules) :
    rules.head? = some hibernationPrimaryDirective := by
  have hflag : hibernationFlag st = true := by
    unfold hibernationFlag dgetD
    rw [hhib]
    rfl
  unfold promptDirectiveRules at hrules
  cases hvit : vitalsOf st with
  | none => rw [hvit] at hrules; simp at hrules
  | some vit =>
    rw [hvit] at hrules
    simp only [Option.map_some'] at hrules
    have h2 := Option.some.inj hrules
    rw [← h2]
    simp [directive_rules, hflag]

/-- Witness for C1 at a concrete status with the hibernation flag set. -/
theorem hibernation_primary_directive_override_witness :
    ((promptDirectiveRules engines0 []
        [("hibernation_mode", PyVal.str ("1"))]).getD []).head?
      = some hibernationPrimaryDirective :=
  hibernation_primary_directive_override engines0 []
    [("hibernation_mode", PyVal.str ("1"))]
    ((promptDirectiveRules engines0 [] [("hibernation_mode", PyVal.str ("1"))]).getD [])
    (List.cons_ne_nil _ _) rfl rfl

/-- C2 (code bug): the claim says `extract_and_save_user_facts` never
propagates an exception, but when the adapter reply is not valid JSON the
first `json.loads` raises `JSONDecodeError` and the matching handler
(line 96) formats `actual_llm_output` into its log message before that local
is ever assigned, so the handler itself raises an unbound-local `NameError`
that escapes the coroutine.  This theorem evaluates the pipeline at such a
reply. -/
theorem extract_first_parse_failure_propagates :
    extract_and_save_user_facts (fun _ => Option.none) ("not json")
      = ExtractOutcome.raisedNameError := rfl

/-- C3: a successful merge only sets `biography.<trimmed key>` fields for
keys of the extracted set (plus the `first_name` alias), so every biography
key present before is still present afterwards, with its old value unless
the key is a trimmed key of the extracted set. -/
theorem fact_merge_preserves_biography (facts doc : Doc) (k : String)
    (hk : present doc ("biography." ++ k) = true) :
    (∀ f ∈ keys (update_fields_with_alias facts),
        f = "first_name"
        ∨ ∃ kv ∈ facts, pyStrip kv.1 ≠ "" ∧ f = "biography." ++ pyStrip kv.1)
    ∧ present (applySet doc (update_fields_with_alias facts))
        ("biography." ++ k) = true
    ∧ ((∀ kv ∈ facts, pyStrip kv.1 ≠ k) →
        getField (applySet doc (update_fields_with_alias facts)) ("biography." ++ k)
          = getField doc ("biography." ++ k)) := by
  refine ⟨mem_keys_update_fields_with_alias facts,
    present_applySet_mono _ _ _ hk, ?_⟩
  intro hfr
  apply getField_applySet_of_not_mem
  intro kv hkv hkey
  have hmem : kv.1 ∈ keys (update_fields_with_alias facts) :=
    List.mem_map.mpr ⟨kv, hkv, rfl⟩
  rcases mem_keys_update_fields_with_alias facts kv.1 hmem with h1 | ⟨p, hp, hne, hf⟩
  · rw [h1] at hkey
    exact biography_ne_first_name k hkey.symm
  · rw [hf] at hkey
    exact hfr p hp (biography_append_inj _ _ hkey)

/-- Witness for C3: a one-fact merge into a one-key biography. -/
theorem fact_merge_preserves_biography_witness :
    present (applySet [("biography.color", PyVal.str ("blue"))]
        (update_fields_with_alias [("name", PyVal.str ("John"))]))
      ("biography." ++ "color") = true
    ∧ getField (applySet [("biography.color", PyVal.str ("blue"))]
        (update_fields_with_alias [("name", PyVal.str ("John"))]))
        ("biography." ++ "color")
      = getField [("biography.color", PyVal.str ("blue"))] ("biography." ++ "color") :=
  ⟨(fact_merge_preserves_biography [("name", PyVal.str ("John"))]
      [("biography.color", PyVal.str ("blue"))] ("color") rfl).2.1,
   (fact_merge_preserves_biography [("name", PyVal.str ("John"))]
      [("biography.color", PyVal.str ("blue"))] ("color") rfl).2.2
     (by
       intro kv hkv
       rcases List.mem_singleton.mp hkv with rfl
       decide)⟩

/-- C4 (amended): for every message whose trimmed form is non-empty, shorter
than 4 characters, and free of Hangul/Kana/CJK characters, the detector
returns the default `"en"`.  (The script sniff runs first, so a short
all-Korean or all-Japanese message is not mapped to English — see the
counterexample.) -/
theorem short_message_default_en (dl : DetectLangs) (d1 : Detect1)
    (message owner mem : String)
    (hne : pyStrip message ≠ "")
    (hlen : (pyStrip message).length < 4)
    (hscript : script_lang (pyStrip message) = Option.none) :
    detect_language_from_message dl d1 message owner mem = "en" := by
  simp only [detect_language_from_message]
  rw [if_pos hne, detectTiers_short dl d1 _ hscript hlen]

/-- Witness for the amended C4 statement at a three-character Latin message. -/
theorem short_message_default_en_witness :
    detect_language_from_message dlFail d1Fail ("ok!") ("Alice") ("") = "en" :=
  short_message_default_en dlFail d1Fail ("ok!") ("Alice") ("")
    (by decide) (by decide) rfl

/-- C4 counterexample: `"안녕"` has trimmed length 2 (below the threshold),
yet the detector returns `"ko"` via the script sniff, not the default —
refuting the claim that every below-threshold message yields `"en"`. -/
theorem short_message_default_en_counterexample :
    ((pyStrip ("안녕")).length < 4)
    ∧ detect_language_from_message dlFail d1Fail ("안녕") ("Alice") ("") = "ko"
    ∧ ("ko" : String) ≠ "en" :=
  ⟨by decide, rfl, by decide⟩

/-- C5: with a well-formed pet record (string pet type, dict knowledge base,
so evaluation reaches the final f-string), a `None` or empty `pet_status`
makes `build_pet_prompt` raise `UnboundLocalError` instead of returning a
prompt: `response_directive` is assigned only inside the `if pet_status:`
branch but interpolated unconditionally into the returned string. -/
theorem build_pet_prompt_no_status_unbound (E : Engines) (dl : DetectLangs)
    (d1 : Detect1) (pet : Doc) (owner mem msg : String) (bio : Option Doc)
    (pet_status : Option Doc)
    (hwf : petWellFormed pet = true)
    (hstatus : pet_status = Option.none ∨ pet_status = some ([] : Doc)) :
    build_pet_prompt E dl d1 pet owner mem pet_status bio msg
      = Except.error PyErr.unboundLocalError := by
  unfold petWellFormed at hwf
  cases hpt : petTypeRaw pet with
  | str s =>
    cases hkb : dgetD pet ("knowledge_base") (PyVal.dict []) with
    | dict kb =>
      unfold build_pet_prompt
      rw [hpt, hkb]
      rcases hstatus with rfl | rfl
      · rfl
      · rfl
    | str s2 => rw [hpt, hkb] at hwf; simp at hwf
    | int n => rw [hpt, hkb] at hwf; simp at hwf
    | rat q => rw [hpt, hkb] at hwf; simp at hwf
    | bool b => rw [hpt, hkb] at hwf; simp at hwf
    | none => rw [hpt, hkb] at hwf; simp at hwf
    | arr xs => rw [hpt, hkb] at hwf; simp at hwf
  | int n => rw [hpt] at hwf; simp at hwf
  | rat q => rw [hpt] at hwf; simp at hwf
  | bool b => rw [hpt] at hwf; simp at hwf
  | none => rw [hpt] at hwf; simp at hwf
  | dict fs => rw [hpt] at hwf; simp at hwf
  | arr xs => rw [hpt] at hwf; simp at hwf

/-- Witness for C5 with an empty pet record and absent status. -/
theorem build_pet_prompt_no_status_unbound_witness :
    build_pet_prompt engines0 dlFail d1Fail [] ("Alice") ("")
        Option.none Option.none ("")
      = Except.error PyErr.unboundLocalError :=
  build_pet_prompt_no_status_unbound engines0 dlFail d1Fail [] ("Alice") ("")
    ("") Option.none Option.none rfl (Or.inl rfl)

/-- C6: when the envelope is an error envelope, or the reply text has no
brace boundary, or the brace slice does not parse to a non-empty JSON
object, `extract_and_save_user_facts` returns normally without any
biography-store write. -/
theorem extract_no_write_on_failure (loads : JsonLoads) (reply : String) (env : Doc)
    (henv : loads reply = some (PyVal.dict env))
    (hfail :
      dgetD env ("status") PyVal.none = PyVal.str ("error")
      ∨ ∃ ddata : Doc, dgetD env ("data") (PyVal.dict []) = PyVal.dict ddata ∧
          ∃ s : String, dgetD ddata ("response") PyVal.none = PyVal.str s ∧
            (braceSlice (pyStrip s) = Option.none
             ∨ ∃ sub, braceSlice (pyStrip s) = some sub ∧ isNonemptyObj (loads sub) = false)) :
    extract_and_save_user_facts loads reply = ExtractOutcome.noWrite := by
  unfold extract_and_save_user_facts
  rw [henv]
  show extractFromEnvelope loads env = ExtractOutcome.noWrite
  unfold extractFromEnvelope
  rcases hfail with hstat | ⟨ddata, hdata, s, hresp, hrest⟩
  · rw [hstat]
    rfl
  · by_cases hstat : (match dgetD env ("status") PyVal.none with
        | PyVal.str s2 => s2 == "error"
        | _ => false) = true
    · rw [if_pos hstat]
    · rw [if_neg hstat, hdata]
      simp only [extractFromData]
      rw [hresp]
      by_cases hs : s = ""
      · subst hs
        rfl
      · have htr : (!truthy (PyVal.str s)) = false := by simp [truthy, hs]
        rw [htr]
        simp only [Bool.false_eq_true, if_false]
        simp only [extractFromOutput]
        rcases hrest with hbr | ⟨sub, hsub, hobj⟩
        · rw [hbr]
        · rw [hsub]
          simp only [extractParsedFacts]
          cases hl : loads sub with
          | none => rfl
          | some v =>
            rw [hl] at hobj
            cases v with
            | dict facts =>
              cases facts with
              | nil => rfl
              | cons f fs => simp [isNonemptyObj] at hobj
            | str s2 => rfl
            | int n => rfl
            | rat q => rfl
            | bool b => rfl
            | none => rfl
            | arr xs => rfl

/-- Witness for C6: a success envelope whose extraction reply is the empty
object, so no storage write occurs. -/
theorem extract_no_write_on_failure_witness :
    extract_and_save_user_facts
      (fun t => if t = "R" then
          some (PyVal.dict
            [("status", PyVal.str ("success")),
             ("data", PyVal.dict [("response", PyVal.str ("\x7b\x7d"))])])
        else if t = "\x7b\x7d" then some (PyVal.dict []) else Option.none)
      ("R") = ExtractOutcome.noWrite :=
  extract_no_write_on_failure _ ("R")
    [("status", PyVal.str ("success")),
     ("data", PyVal.dict [("response", PyVal.str ("\x7b\x7d"))])]
    rfl
    (Or.inr ⟨[("response", PyVal.str ("\x7b\x7d"))], rfl, "\x7b\x7d", rfl,
      Or.inr ⟨"\x7b\x7d", rfl, rfl⟩⟩)

/-- C7: the probabilistic tier is consulted only at or above the 15-character
reliability floor (below it, the result does not depend on the classifier at
all); `_prob_detect` accepts exactly the top candidate with probability at
least 0.80 and a supported code; and when it yields nothing the cascade
proceeds exactly as if the tier were absent, falling to the next tier. -/
theorem prob_tier_contract :
    (∀ (dlA dlB : DetectLangs) (d1 : Detect1) (message owner : String),
        (pyStrip message).length < MIN_CHARS_FOR_RELIABLE_DETECTION →
        detect_language_from_message dlA d1 message owner ("")
          = detect_language_from_message dlB d1 message owner (""))
    ∧ (∀ (dl : DetectLangs) (s lang : String),
        prob_detect dl s = some lang
          ↔ ∃ p rest, dl s = Except.ok ((lang, p) :: rest)
              ∧ (4 : Rat)/5 ≤ p ∧ lang ∈ SUPPORTED_LANGUAGE_CODES)
    ∧ (∀ (dl : DetectLangs) (d1 : Detect1) (s : String),
        prob_detect dl s = Option.none →
        detectTiers dl d1 s = detectTiers (fun _ => Except.error ()) d1 s) := by
  refine ⟨?_, ?_, ?_⟩
  · intro dlA dlB d1 message owner h
    simp only [detect_language_from_message]
    rw [detectTiers_indep dlA dlB d1 (pyStrip message) h]
    simp
  · intro dl s lang
    constructor
    · intro h
      cases hdl : dl s with
      | error e =>
        have heq : prob_detect dl s = Option.none := by
          unfold prob_detect; rw [hdl]
        rw [heq] at h; cases h
      | ok cands =>
        cases cands with
        | nil =>
          have heq : prob_detect dl s = Option.none := by
            unfold prob_detect; rw [hdl]
          rw [heq] at h; cases h
        | cons top rest =>
          have heq : prob_detect dl s
              = if (4 : Rat)/5 ≤ top.2 ∧ top.1 ∈ SUPPORTED_LANGUAGE_CODES
                then some top.1 else Option.none := by
            unfold prob_detect; rw [hdl]
          rw [heq] at h
          by_cases hc : (4 : Rat)/5 ≤ top.2 ∧ top.1 ∈ SUPPORTED_LANGUAGE_CODES
          · rw [if_pos hc] at h
            have h2 : top.1 = lang := Option.some.inj h
            refine ⟨top.2, rest, ?_, hc.1, h2 ▸ hc.2⟩
            have he : (lang, top.2) = top := by rw [← h2]
            rw [he]
          · rw [if_neg hc] at h
            cases h
    · rintro ⟨p, rest, hdl, hp, hlang⟩
      have heq : prob_detect dl s
          = if (4 : Rat)/5 ≤ (lang, p).2 ∧ (lang, p).1 ∈ SUPPORTED_LANGUAGE_CODES
            then some (lang, p).1 else Option.none := by
        unfold prob_detect; rw [hdl]
      rw [heq, if_pos ⟨hp, hlang⟩]
  · intro dl d1 s h
    exact detectTiers_prob_none dl d1 s h

/-- Witness for C7, instantiating each conjunct at concrete classifiers. -/
theorem prob_tier_contract_witness :
    detect_language_from_message (fun _ => Except.ok [("ko", 1)]) d1Fail
        ("hello!!") ("Alice") ("")
      = detect_language_from_message dlFail d1Fail ("hello!!") ("Alice") ("")
    ∧ prob_detect (fun _ => Except.ok [("ko", (9 : Rat)/10)]) ("any text")
        = some ("ko")
    ∧ detectTiers (fun _ => Except.ok []) d1Fail ("x")
        = detectTiers (fun _ => Except.error ()) d1Fail ("x") :=
  ⟨prob_tier_contract.1 _ _ _ ("hello!!") ("Alice") (by decide),
   (prob_tier_contract.2.1 _ ("any text") ("ko")).mpr
     ⟨(9 : Rat)/10, [], rfl, by norm_num, by decide⟩,
   prob_tier_contract.2.2 _ _ ("x") rfl⟩

/-- C8 (amended): when the current message yields no language and both the
memory snippet and owner name are non-empty, the result is determined by the
most recent owner-prefixed history line with a NON-EMPTY payload — owner
lines whose text after the colon is empty are skipped and older lines are
consulted — and if no such line exists, or that single line is inconclusive,
the default `"en"` is returned. -/
theorem history_fallback (dl : DetectLangs) (d1 : Detect1)
    (message owner mem : String)
    (howner : owner ≠ "") (hmem : mem ≠ "")
    (hmsg : pyStrip message = "" ∨ detectTiers dl d1 (pyStrip message) = Option.none) :
    detect_language_from_message dl d1 message owner mem
      = (match findOwnerLine owner mem with
         | some prev => (detectTiers dl d1 prev).getD ("en")
         | Option.none => "en") := by
  simp only [detect_language_from_message]
  have hnone : (if pyStrip message ≠ "" then detectTiers dl d1 (pyStrip message)
      else Option.none) = Option.none := by
    rcases hmsg with h | h
    · rw [if_neg (by simp [h])]
    · by_cases he : pyStrip message ≠ ""
      · rw [if_pos he]; exact h
      · rw [if_neg he]
    
  rw [hnone, if_pos ⟨hmem, howner⟩]

/-- Witness for the amended C8 statement: the latest owner line `"Alice: hi"`
is examined and resolves to English via the short-token tier. -/
theorem history_fallback_witness :
    detect_language_from_message dlFail d1Fail ("") ("Alice") ("Alice: hi")
      = (match findOwnerLine ("Alice") ("Alice: hi") with
         | some prev => (detectTiers dlFail d1Fail prev).getD ("en")
         | Option.none => "en") :=
  history_fallback dlFail d1Fail ("") ("Alice") ("Alice: hi")
    (by decide) (by decide) (Or.inl rfl)

/-- C8 counterexample: with history `"Alice: こんにちは\nAlice:"` the most
recent owner-prefixed line is `"Alice:"` (empty payload); the claim says only
that line is consulted (its empty text is inconclusive, so the default
`"en"` would be returned), but the code skips it, consults the OLDER line
`"Alice: こんにちは"`, and returns `"ja"`. -/
theorem history_fallback_counterexample :
    findOwnerLine ("Alice") ("Alice: こんにちは\nAlice:") = some ("こんにちは")
    ∧ detect_language_from_message dlFail d1Fail ("") ("Alice")
        ("Alice: こんにちは\nAlice:") = "ja"
    ∧ ("ja" : String) ≠ "en" :=
  ⟨rfl, rfl, by decide⟩

/-- C9: fact merge is idempotent — applying the `$set` computed from an
extracted fact set twice yields the same stored document as applying it
once (the update fields are a pure function of the extracted set, and their
keys are pairwise distinct by construction). -/
theorem fact_merge_idempotent (facts doc : Doc) :
    applySet (applySet doc (update_fields_with_alias facts))
        (update_fields_with_alias facts)
      = applySet doc (update_fields_with_alias facts) :=
  applySet_idem _ _ (nodup_keys_update_fields_with_alias facts)

/-- C10 (amended): a failure message containing a rate-limit indicator
(`"rate"` case-insensitively or `"429"`) is mapped to `AI_RATE_LIMIT` —
provided it contains none of the authorization indicators (`"401"`,
`"unauthor"`, `"auth"` case-insensitively), which are checked FIRST by
`generate_response`; the error envelope then carries status `"error"` and
that code. -/
theorem rate_limit_code (msg : String)
    (hrate : strContains (pyLower msg) ("rate") = true
      ∨ strContains msg ("429") = true)
    (h401 : strContains msg ("401") = false)
    (hunauth : strContains (pyLower msg) ("unauthor") = false)
    (hauth : strContains (pyLower msg) ("auth") = false) :
    errorCodeForMessage msg = "AI_RATE_LIMIT"
    ∧ generate_response_groq_error msg
      = PyVal.dict
          [("status", PyVal.str ("error")),
           ("error", PyVal.dict
              [("message", PyVal.str msg),
               ("code", PyVal.str ("AI_RATE_LIMIT"))])] := by
  have hcode : errorCodeForMessage msg = "AI_RATE_LIMIT" := by
    rcases hrate with h | h <;> simp [errorCodeForMessage, h401, hunauth, hauth, h]
  refine ⟨hcode, ?_⟩
  unfold generate_response_groq_error
  rw [hcode]

/-- Witness for the amended C10 statement at a pure rate-limit message. -/
theorem rate_limit_code_witness :
    errorCodeForMessage ("Error 429: Too Many Requests") = "AI_RATE_LIMIT" :=
  (rate_limit_code ("Error 429: Too Many Requests") (Or.inr rfl) rfl rfl rfl).1

/-- C10 counterexample: `"Rate limit exceeded for this auth token"` contains
the rate-limit indicator `"rate"` (case-insensitively), but the
authorization heuristic fires first on `"auth"`, so the code is
`AI_AUTH_ERROR`, not `AI_RATE_LIMIT` as the claim requires. -/
theorem rate_limit_counterexample :
    strContains (pyLower ("Rate limit exceeded for this auth token")) ("rate") = true
    ∧ errorCodeForMessage ("Rate limit exceeded for this auth token") = "AI_AUTH_ERROR"
    ∧ ("AI_AUTH_ERROR" : String) ≠ "AI_RATE_LIMIT" :=
  ⟨rfl, rfl, by decide⟩

end PetLLM
